import Mathlib

/-!
Shallow embedding of the connection/session/relay core of the chat-app backend
(utils/socketHandler.js, routes/auth.js logout, middleware userSessions map).

Conventions of the embedding:
* JavaScript strings that may be `undefined` are modelled as `Option String`
  (`none` models `undefined`); the JS truthiness test `!x` on such a field is
  the `truthy` function below (false for `undefined` and for the empty string).
* The socket.io adapter room table `io.sockets.adapter.rooms` is a function
  from room name to the list of socket ids currently joined (a missing room is
  the empty list, matching `room ? room.size : 0` in `getRoomSize`).
* `io.to(room).emit(...)` and `socket.emit(...)` are recorded as `Emit` values;
  resolving a room emission to the sockets that actually receive it is
  `eventsDeliveredTo`, applied to the adapter state at emission time.
* External collaborators reached through `await` (friendship oracle, durable
  stores) are parameters of the handler functions; the wall clock
  `new Date().toISOString()` is a `now : String` parameter.
-/

/-- JS truthiness of a possibly-undefined string: `!x` is true exactly when the
value is `undefined` or the empty string. -/
def truthy : Option String → Bool
  | none => false
  | some s => if s = "" then false else true

/-- The JS idiom `x || "text"` on a possibly-undefined string field. -/
def jsOrText : Option String → String
  | none => "text"
  | some s => if s = "" then "text" else s

/-- Payload shape of an outbound `new_message` event (source lines 144-152 and
70-78 of utils/socketHandler.js). -/
structure NewMessagePayload where
  messageUuid : String
  senderId : String
  receiverId : String
  message : String
  messageType : String
  timestamp : Option String
  status : String
deriving DecidableEq, Repr

/-- Outbound socket events of the relay core (wire names from §6 of the spec
and the emit sites in utils/socketHandler.js). -/
inductive Event where
  | new_message (p : NewMessagePayload)
  | message_sent (messageUuid : String) (status : String) (timestamp : String)
  | message_error (error : String) (messageUuid : Option String)
  | message_status_update (messageUuid : String) (status : String) (updatedBy : String)
  | user_typing (userId : String) (isTyping : Bool)
  | friend_status_update (friendId : String) (isOnline : Bool) (timestamp : String)
  | friend_request_received (requestId : String) (senderId : String) (timestamp : String)
deriving DecidableEq, Repr

/-- One emission: either `io.to(room).emit(ev)` or `socket.emit(ev)` on the
socket with id `sid`. -/
inductive Emit where
  | toRoom (room : String) (ev : Event)
  | toSocket (sid : String) (ev : Event)
deriving DecidableEq, Repr

/-- Events a given socket receives from a list of emissions, resolving room
emissions through the adapter membership state at emission time. -/
def eventsDeliveredTo (membership : String → List String) (sid : String)
    (emits : List Emit) : List Event :=
  emits.filterMap (fun e =>
    match e with
    | Emit.toRoom r ev => if sid ∈ membership r then some ev else none
    | Emit.toSocket s ev => if s = sid then some ev else none)

/-- A row of the offline_messages table (schema in the repository SQL file;
field names as read back in utils/socketHandler.js lines 69-79). -/
structure OfflineMessage where
  id : Nat
  sender_id : String
  receiver_id : String
  message_content : String
  message_uuid : String
  message_type : Option String
  timestamp : String
deriving DecidableEq, Repr

/-- Modelled from the spec: `FriendService.storeOfflineMessage` is not under
src (only its caller in utils/socketHandler.js and the offline_messages table
declaration are). Per §4.4, `store(senderId, receiverId, content, messageId,
type)` appends one durable Queued Message record carrying the passed fields;
the row id and creation timestamp are assigned by the store. -/
def storeOfflineMessage (nextId : Nat) (now : String) (senderId receiverId content messageUuid : String)
    (messageType : Option String) : OfflineMessage :=
  ⟨nextId, senderId, receiverId, content, messageUuid, messageType, now⟩

/-- Modelled from the spec: `FriendService.getOfflineMessages` is not under
src (only its caller is). Per §4.4, `drain(userId)` returns all pending
messages for userId in ascending creation-timestamp order, which for the
append-ordered mailbox list is the sublist of rows addressed to userId in
storage order. -/
def getOfflineMessages (mailbox : List OfflineMessage) (userId : String) : List OfflineMessage :=
  mailbox.filter (fun m => m.receiver_id == userId)

/-- Modelled from the spec: `FriendService.deleteOfflineMessages` is not under
src (only its caller is). Per §4.4, `delete(ids)` removes rows by identifier
and ignores absent ids. -/
def deleteOfflineMessages (mailbox : List OfflineMessage) (ids : List Nat) : List OfflineMessage :=
  mailbox.filter (fun m => !(ids.contains m.id))

/-- The `new_message` payload built for a drained offline row
(utils/socketHandler.js lines 70-78). -/
def offlinePayload (m : OfflineMessage) : NewMessagePayload :=
  ⟨m.message_uuid, m.sender_id, m.receiver_id, m.message_content,
    jsOrText m.message_type, some m.timestamp, "delivered"⟩

/-- Offline-delivery step of `handleConnection` (utils/socketHandler.js lines
62-90): fetch the pending rows for the connecting user, emit each one to the
personal room in order with status delivered, then delete the emitted ids.
Returns the emissions and the mailbox after deletion. -/
def deliverOfflineMessages (mailbox : List OfflineMessage) (userId : String) :
    List Emit × List OfflineMessage :=
  let offlineMessages := getOfflineMessages mailbox userId
  let emits := offlineMessages.map
    (fun m => Emit.toRoom ("user_" ++ userId) (Event.new_message (offlinePayload m)))
  let idsToDelete := offlineMessages.map (fun m => m.id)
  (emits, deleteOfflineMessages mailbox idsToDelete)

/-- Room size helper (utils/socketHandler.js lines 36-39): the number of
sockets currently joined to the room, 0 when the room is absent. -/
def getRoomSize (rooms : String → List String) (roomName : String) : Nat :=
  (rooms roomName).length

/-- Inbound `send_message` payload fields as destructured on line 127 of
utils/socketHandler.js; each may be absent. -/
structure SendData where
  receiverId : Option String
  messageUuid : Option String
  message : Option String
  messageType : Option String
  timestamp : Option String
deriving DecidableEq, Repr

/-- Destructuring `data || {}` when data is undefined yields all-undefined fields. -/
def emptyData : SendData := ⟨none, none, none, none, none⟩

/-- The validation on line 133 of utils/socketHandler.js: the handler proceeds
iff `receiverId` and `messageUuid` are truthy and `message` is defined
(`typeof message === undefined` is the only check on message). -/
def validSend (d : SendData) : Bool :=
  truthy d.receiverId && truthy d.messageUuid && d.message.isSome

/-- Result of one `handleSendMessage` call: the emissions it performed, in
order, and the rows it appended to the offline mailbox. -/
structure SendResult where
  emits : List Emit
  stored : List OfflineMessage
deriving DecidableEq, Repr

/-- `handleSendMessage` (utils/socketHandler.js lines 126-175). `af` is the
friendship oracle `FriendService.areUsersFriends`; `rooms` is the adapter room
state read by the `getRoomSize` check on line 157 (step 5 of §4.3); `nextId`
and `now` are the row id and wall clock supplied by the environment. A thrown
error lands in the catch block, which emits `message_error` with the
destructured (possibly undefined) messageUuid to the sender socket. -/
def handleSendMessage (af : String → String → Bool) (rooms : String → List String)
    (nextId : Nat) (now : String) (senderSocket senderId : String)
    (data : Option SendData) : SendResult :=
  let d := data.getD emptyData
  if validSend d = false then
    ⟨[Emit.toSocket senderSocket (Event.message_error
        "Missing required fields (receiverId, messageUuid, message)" d.messageUuid)], []⟩
  else if af senderId (d.receiverId.getD "") = false then
    ⟨[Emit.toSocket senderSocket (Event.message_error
        "Message blocked: Users are not friends." d.messageUuid)], []⟩
  else
    ⟨[Emit.toRoom ("user_" ++ d.receiverId.getD "")
        (Event.new_message ⟨d.messageUuid.getD "", senderId, d.receiverId.getD "",
          d.message.getD "", jsOrText d.messageType, d.timestamp, "delivered"⟩),
      Emit.toSocket senderSocket (Event.message_sent (d.messageUuid.getD "") "sent" now)],
     if getRoomSize rooms ("user_" ++ d.receiverId.getD "") = 0 then
       [storeOfflineMessage nextId now senderId (d.receiverId.getD "")
          (d.message.getD "") (d.messageUuid.getD "") d.messageType]
     else []⟩

/-- True of an emission that acknowledges the send to the sender socket:
either the `message_sent` confirmation or a `message_error`. -/
def ackToSender (sock : String) : Emit → Bool
  | Emit.toSocket s (Event.message_sent _ _ _) => s == sock
  | Emit.toSocket s (Event.message_error _ _) => s == sock
  | _ => false

/-- `notifyFriendsStatusChange` (utils/socketHandler.js lines 268-281): emits
`friend_status_update` to the personal room of every friend, unconditionally. -/
def notifyFriendsStatusChange (friendsOf : String → List String) (userId : String)
    (isOnline : Bool) (now : String) : List Emit :=
  (friendsOf userId).map
    (fun fid => Emit.toRoom ("user_" ++ fid) (Event.friend_status_update userId isOnline now))

/-- Result of `handleDisconnect`: emissions plus the durable
`updateUserOnlineStatus` writes it issued. -/
structure DisconnectResult where
  emits : List Emit
  statusWrites : List (String × Bool)
deriving DecidableEq, Repr

/-- `handleDisconnect` (utils/socketHandler.js lines 289-306): when the socket
has a userId, it marks the user offline in durable storage and notifies all
friends with `isOnline = false`; it consults no room membership and takes no
account of other live connections of the same user. -/
def handleDisconnect (friendsOf : String → List String) (socketUserId : Option String)
    (now : String) : DisconnectResult :=
  match socketUserId with
  | none => ⟨[], []⟩
  | some userId =>
    ⟨notifyFriendsStatusChange friendsOf userId false now, [(userId, false)]⟩

/-- Inbound `update_message_status` payload fields (utils/socketHandler.js
line 182). -/
structure StatusData where
  messageUuid : Option String
  status : Option String
  senderId : Option String
deriving DecidableEq, Repr

/-- Outcome of a handler call as observed by the event loop: either it ran to
completion with some emissions (errors caught and logged inside), or an
exception escaped the handler uncaught. -/
inductive JsOutcome where
  | ok (emits : List Emit)
  | thrown (err : String)
deriving DecidableEq, Repr

/-- `handleMessageStatusUpdate` (utils/socketHandler.js lines 181-209). The
destructuring `const (fields) = data` on line 182 happens before the try
block, so a missing payload throws a TypeError that no catch in the handler
covers; with a payload present, missing fields are caught and only logged,
and otherwise the update is relayed to the original sender room. -/
def handleMessageStatusUpdate (socketUserId : String) (data : Option StatusData) : JsOutcome :=
  match data with
  | none => JsOutcome.thrown "TypeError: cannot destructure properties of undefined"
  | some d =>
    if truthy d.messageUuid = false ∨ truthy d.status = false ∨ truthy d.senderId = false then
      JsOutcome.ok []
    else
      JsOutcome.ok [Emit.toRoom ("user_" ++ d.senderId.getD "")
        (Event.message_status_update (d.messageUuid.getD "") (d.status.getD "") socketUserId)]

/-- Outcome of the socket authentication middleware. -/
inductive AuthResult where
  | accepted (userId sessionId : String)
  | rejected (error : String)
deriving DecidableEq, Repr

/-- The session set a user currently holds in the userSessions map
(middleware/auth.js): the value of the first entry keyed by the user, or the
empty list when the user has no entry. -/
def sessionsOf (table : List (String × List String)) (userId : String) : List String :=
  match table.find? (fun e => e.1 == userId) with
  | some e => e.2
  | none => []

/-- `authenticateSocket` (utils/socketHandler.js lines 12-31). `verify` models
`jwt.verify` returning the decoded (userId, sessionId) or throwing (`none`);
the session check on line 20 requires the userSessions map to hold the userId
and its set to hold the sessionId. -/
def authenticateSocket (verify : String → Option (String × String))
    (userSessions : List (String × List String)) (token : Option String) : AuthResult :=
  match token with
  | none => AuthResult.rejected "Authentication token required"
  | some t =>
    match verify t with
    | none => AuthResult.rejected "Authentication failed"
    | some (userId, sessionId) =>
      match userSessions.find? (fun e => e.1 == userId) with
      | none => AuthResult.rejected "Session has been invalidated"
      | some e =>
        if sessionId ∈ e.2 then AuthResult.accepted userId sessionId
        else AuthResult.rejected "Session has been invalidated"

/-- Session removal of the logout route (routes/auth.js lines 276-284): the
presented sessionId is deleted from the userId entry of the userSessions map,
and the entry itself is dropped when its set becomes empty. -/
def removeSession (table : List (String × List String)) (userId sessionId : String) :
    List (String × List String) :=
  (table.map (fun e => if e.1 == userId then (e.1, e.2.erase sessionId) else e)).filter
    (fun e => !(e.1 == userId && e.2.isEmpty))

/-- `POST /api/auth/logout` (routes/auth.js lines 262-298): with no token the
table is untouched (400); a token that fails verification leaves the table
untouched (500); otherwise exactly the decoded (userId, sessionId) pair is
removed (200). Returns the new table and the HTTP status. -/
def logout (verify : String → Option (String × String))
    (table : List (String × List String)) (token : Option String) :
    List (String × List String) × Nat :=
  match token with
  | none => (table, 400)
  | some t =>
    match verify t with
    | none => (table, 500)
    | some (userId, sessionId) => (removeSession table userId sessionId, 200)

/-- Branch lemma: a send with a failed field validation only emits the
validation `message_error` and stores nothing. -/
theorem handleSendMessage_invalid (af : String → String → Bool) (rooms : String → List String)
    (nextId : Nat) (now senderSocket senderId : String) (data : Option SendData)
    (hv : validSend (data.getD emptyData) = false) :
    handleSendMessage af rooms nextId now senderSocket senderId data =
      ⟨[Emit.toSocket senderSocket (Event.message_error
          "Missing required fields (receiverId, messageUuid, message)"
          (data.getD emptyData).messageUuid)], []⟩ := by
  simp [handleSendMessage, hv]

/-- Branch lemma: a valid send between non-friends only emits the
authorization `message_error` and stores nothing. -/
theorem handleSendMessage_notFriends (af : String → String → Bool) (rooms : String → List String)
    (nextId : Nat) (now senderSocket senderId : String) (data : Option SendData)
    (hv : validSend (data.getD emptyData) = true)
    (hnf : af senderId ((data.getD emptyData).receiverId.getD "") = false) :
    handleSendMessage af rooms nextId now senderSocket senderId data =
      ⟨[Emit.toSocket senderSocket (Event.message_error
          "Message blocked: Users are not friends."
          (data.getD emptyData).messageUuid)], []⟩ := by
  simp [handleSendMessage, hv, hnf]

/-- Branch lemma: a valid, authorized send emits to the receiver room, then
acknowledges, and stores one row exactly when the step-5 room check is empty. -/
theorem handleSendMessage_ok (af : String → String → Bool) (rooms : String → List String)
    (nextId : Nat) (now senderSocket senderId : String) (data : Option SendData)
    (hv : validSend (data.getD emptyData) = true)
    (hf : af senderId ((data.getD emptyData).receiverId.getD "") = true) :
    handleSendMessage af rooms nextId now senderSocket senderId data =
      ⟨[Emit.toRoom ("user_" ++ (data.getD emptyData).receiverId.getD "")
          (Event.new_message ⟨(data.getD emptyData).messageUuid.getD "", senderId,
            (data.getD emptyData).receiverId.getD "", (data.getD emptyData).message.getD "",
            jsOrText (data.getD emptyData).messageType, (data.getD emptyData).timestamp,
            "delivered"⟩),
        Emit.toSocket senderSocket (Event.message_sent
          ((data.getD emptyData).messageUuid.getD "") "sent" now)],
       if getRoomSize rooms ("user_" ++ (data.getD emptyData).receiverId.getD "") = 0 then
         [storeOfflineMessage nextId now senderId ((data.getD emptyData).receiverId.getD "")
            ((data.getD emptyData).message.getD "") ((data.getD emptyData).messageUuid.getD "")
            (data.getD emptyData).messageType]
       else []⟩ := by
  rw [handleSendMessage]
  rw [if_neg (by simp [hv]), if_neg (by simp [hf])]

/-- C1: for every send_message request whose sender and receiver are not
friends, the relay emits no new_message to any room, creates no Queued
Message, and emits a message_error to the sender socket. -/
theorem send_message_not_friends_blocked (af : String → String → Bool)
    (rooms : String → List String) (nextId : Nat)
    (now senderSocket senderId rid : String) (d : SendData)
    (hrid : d.receiverId = some rid)
    (hnf : af senderId rid = false) :
    (handleSendMessage af rooms nextId now senderSocket senderId (some d)).stored = [] ∧
    (∀ room p, Emit.toRoom room (Event.new_message p) ∉
      (handleSendMessage af rooms nextId now senderSocket senderId (some d)).emits) ∧
    (∃ err, Emit.toSocket senderSocket (Event.message_error err d.messageUuid) ∈
      (handleSendMessage af rooms nextId now senderSocket senderId (some d)).emits) := by
  by_cases hv : validSend d = true
  · have hgetD : (some d).getD emptyData = d := rfl
    have hnf' : af senderId (((some d).getD emptyData).receiverId.getD "") = false := by
      rw [hgetD, hrid]; exact hnf
    rw [handleSendMessage_notFriends af rooms nextId now senderSocket senderId (some d)
      (by rw [hgetD]; exact hv) hnf']
    refine ⟨rfl, by simp, ?_⟩
    exact ⟨"Message blocked: Users are not friends.", by simp⟩
  · have hv' : validSend d = false := by revert hv; cases validSend d <;> simp
    rw [handleSendMessage_invalid af rooms nextId now senderSocket senderId (some d) hv']
    refine ⟨rfl, by simp, ?_⟩
    exact ⟨"Missing required fields (receiverId, messageUuid, message)", by simp⟩

/-- C1 witness at a concrete input. -/
theorem send_message_not_friends_blocked_witness :
    (SendData.mk (some "bob") (some "m1") (some "hi") none none).receiverId = some "bob" ∧
    (fun _ _ => false) "alice" "bob" = false ∧
    ((handleSendMessage (fun _ _ => false) (fun _ => []) 0 "t0" "sockA" "alice"
        (some (SendData.mk (some "bob") (some "m1") (some "hi") none none))).stored = [] ∧
      (∀ room p, Emit.toRoom room (Event.new_message p) ∉
        (handleSendMessage (fun _ _ => false) (fun _ => []) 0 "t0" "sockA" "alice"
          (some (SendData.mk (some "bob") (some "m1") (some "hi") none none))).emits) ∧
      (∃ err, Emit.toSocket "sockA" (Event.message_error err (some "m1")) ∈
        (handleSendMessage (fun _ _ => false) (fun _ => []) 0 "t0" "sockA" "alice"
          (some (SendData.mk (some "bob") (some "m1") (some "hi") none none))).emits)) :=
  ⟨rfl, rfl, send_message_not_friends_blocked (fun _ _ => false) (fun _ => []) 0 "t0" "sockA"
    "alice" "bob" (SendData.mk (some "bob") (some "m1") (some "hi") none none) rfl rfl⟩

/-- C2: a valid, authorized send whose receiver room is empty at the step-5
check stores exactly one Queued Message carrying the sender id, receiver id,
content and the original client message id unchanged. -/
theorem send_message_unreachable_queued (af : String → String → Bool)
    (rooms : String → List String) (nextId : Nat)
    (now senderSocket senderId rid uuid msg : String) (d : SendData)
    (h1 : d.receiverId = some rid) (h2 : ¬rid = "")
    (h3 : d.messageUuid = some uuid) (h4 : ¬uuid = "")
    (h5 : d.message = some msg)
    (hf : af senderId rid = true)
    (hempty : rooms ("user_" ++ rid) = []) :
    (handleSendMessage af rooms nextId now senderSocket senderId (some d)).stored =
      [OfflineMessage.mk nextId senderId rid msg uuid d.messageType now] := by
  have hgetD : (some d).getD emptyData = d := rfl
  have hv : validSend d = true := by
    simp [validSend, truthy, h1, h3, h5, h2, h4]
  rw [handleSendMessage_ok af rooms nextId now senderSocket senderId (some d)
    (by rw [hgetD]; exact hv) (by rw [hgetD, h1]; exact hf)]
  simp [hgetD, h1, h3, h5, getRoomSize, hempty, storeOfflineMessage]

/-- C2 witness at a concrete input. -/
theorem send_message_unreachable_queued_witness :
    (SendData.mk (some "bob") (some "m1") (some "hi") none none).receiverId = some "bob" ∧
    ¬("bob" : String) = "" ∧
    (SendData.mk (some "bob") (some "m1") (some "hi") none none).messageUuid = some "m1" ∧
    ¬("m1" : String) = "" ∧
    (SendData.mk (some "bob") (some "m1") (some "hi") none none).message = some "hi" ∧
    (fun _ _ => true) "alice" "bob" = true ∧
    (fun (_ : String) => ([] : List String)) "user_bob" = [] ∧
    (handleSendMessage (fun _ _ => true) (fun _ => []) 7 "t0" "sockA" "alice"
        (some (SendData.mk (some "bob") (some "m1") (some "hi") none none))).stored =
      [OfflineMessage.mk 7 "alice" "bob" "hi" "m1" none "t0"] :=
  ⟨rfl, by decide, rfl, by decide, rfl, rfl, rfl,
    send_message_unreachable_queued (fun _ _ => true) (fun _ => []) 7 "t0" "sockA" "alice"
      "bob" "m1" "hi" (SendData.mk (some "bob") (some "m1") (some "hi") none none)
      rfl (by decide) rfl (by decide) rfl rfl rfl⟩

/-- C3: a valid, authorized send whose receiver room is live at emission time
and still live at the step-5 check delivers the new_message payload to every
socket in the receiver room at emission time, and stores nothing. -/
theorem send_message_reachable_delivered (af : String → String → Bool)
    (roomsAtEmit roomsAtCheck : String → List String) (nextId : Nat)
    (now senderSocket senderId rid uuid msg : String) (d : SendData)
    (h1 : d.receiverId = some rid) (h2 : ¬rid = "")
    (h3 : d.messageUuid = some uuid) (h4 : ¬uuid = "")
    (h5 : d.message = some msg)
    (hf : af senderId rid = true)
    (_hlive : ¬roomsAtEmit ("user_" ++ rid) = [])
    (hcheck : ¬roomsAtCheck ("user_" ++ rid) = []) :
    (∀ s ∈ roomsAtEmit ("user_" ++ rid),
      Event.new_message ⟨uuid, senderId, rid, msg, jsOrText d.messageType, d.timestamp,
          "delivered"⟩ ∈
        eventsDeliveredTo roomsAtEmit s
          (handleSendMessage af roomsAtCheck nextId now senderSocket senderId (some d)).emits) ∧
    (handleSendMessage af roomsAtCheck nextId now senderSocket senderId (some d)).stored = [] := by
  have hgetD : (some d).getD emptyData = d := rfl
  have hv : validSend d = true := by
    simp [validSend, truthy, h1, h3, h5, h2, h4]
  rw [handleSendMessage_ok af roomsAtCheck nextId now senderSocket senderId (some d)
    (by rw [hgetD]; exact hv) (by rw [hgetD, h1]; exact hf)]
  constructor
  · intro s hs
    simp only [hgetD, h1, h3, h5, Option.getD_some]
    simp [eventsDeliveredTo, List.filterMap]
    rw [if_pos hs]
    simp
  · simp only [hgetD, h1, Option.getD_some]
    rw [if_neg (by simp [getRoomSize, List.length_eq_zero, hcheck])]

/-- C3 witness at a concrete input. -/
theorem send_message_reachable_delivered_witness :
    (SendData.mk (some "bob") (some "m1") (some "hi") none none).receiverId = some "bob" ∧
    ¬("bob" : String) = "" ∧
    (SendData.mk (some "bob") (some "m1") (some "hi") none none).messageUuid = some "m1" ∧
    ¬("m1" : String) = "" ∧
    (SendData.mk (some "bob") (some "m1") (some "hi") none none).message = some "hi" ∧
    (fun _ _ => true) "alice" "bob" = true ∧
    ¬(fun (_ : String) => ["sB1", "sB2"]) "user_bob" = [] ∧
    ((∀ s ∈ (fun (_ : String) => ["sB1", "sB2"]) "user_bob",
        Event.new_message ⟨"m1", "alice", "bob", "hi", jsOrText none, none, "delivered"⟩ ∈
          eventsDeliveredTo (fun _ => ["sB1", "sB2"]) s
            (handleSendMessage (fun _ _ => true) (fun _ => ["sB1", "sB2"]) 7 "t0" "sockA" "alice"
              (some (SendData.mk (some "bob") (some "m1") (some "hi") none none))).emits) ∧
      (handleSendMessage (fun _ _ => true) (fun _ => ["sB1", "sB2"]) 7 "t0" "sockA" "alice"
        (some (SendData.mk (some "bob") (some "m1") (some "hi") none none))).stored = []) :=
  ⟨rfl, by decide, rfl, by decide, rfl, rfl, by simp,
    send_message_reachable_delivered (fun _ _ => true) (fun _ => ["sB1", "sB2"])
      (fun _ => ["sB1", "sB2"]) 7 "t0" "sockA" "alice" "bob" "m1" "hi"
      (SendData.mk (some "bob") (some "m1") (some "hi") none none)
      rfl (by decide) rfl (by decide) rfl rfl (by simp) (by simp)⟩

/-- C10: validation requires only a truthy receiverId, a truthy messageUuid
and a defined message; the empty string is an accepted message content, an
absent messageType is replaced by text, and an absent timestamp is passed
through undefined in the relayed payload. -/
theorem send_message_minimal_fields_defaulted (af : String → String → Bool)
    (rooms : String → List String) (nextId : Nat)
    (now senderSocket senderId rid uuid msg : String)
    (h2 : ¬rid = "") (h4 : ¬uuid = "")
    (hf : af senderId rid = true) :
    validSend (SendData.mk (some rid) (some uuid) (some msg) none none) = true ∧
    Emit.toRoom ("user_" ++ rid)
        (Event.new_message ⟨uuid, senderId, rid, msg, "text", none, "delivered"⟩) ∈
      (handleSendMessage af rooms nextId now senderSocket senderId
        (some (SendData.mk (some rid) (some uuid) (some msg) none none))).emits := by
  have hv : validSend (SendData.mk (some rid) (some uuid) (some msg) none none) = true := by
    simp [validSend, truthy, h2, h4]
  refine ⟨hv, ?_⟩
  rw [handleSendMessage_ok af rooms nextId now senderSocket senderId
    (some (SendData.mk (some rid) (some uuid) (some msg) none none)) hv hf]
  simp [jsOrText]

/-- C10 witness: the empty string as message content is accepted and relayed. -/
theorem send_message_minimal_fields_defaulted_witness :
    ¬("bob" : String) = "" ∧
    ¬("m1" : String) = "" ∧
    (fun _ _ => true) "alice" "bob" = true ∧
    (validSend (SendData.mk (some "bob") (some "m1") (some "") none none) = true ∧
      Emit.toRoom "user_bob"
          (Event.new_message ⟨"m1", "alice", "bob", "", "text", none, "delivered"⟩) ∈
        (handleSendMessage (fun _ _ => true) (fun _ => ["sB1"]) 7 "t0" "sockA" "alice"
          (some (SendData.mk (some "bob") (some "m1") (some "") none none))).emits) :=
  ⟨by decide, by decide, rfl,
    send_message_minimal_fields_defaulted (fun _ _ => true) (fun _ => ["sB1"]) 7 "t0" "sockA"
      "alice" "bob" "m1" "" (by decide) (by decide) rfl⟩

/-- C6: every send_message call is acknowledged to the sender exactly once:
one ack emission goes to the sender socket; any message_error carries the
original (possibly undefined) messageUuid of the request; a valid, authorized
send gets message_sent with status sent regardless of reachability; a failed
validation or authorization gets a message_error carrying the original id. -/
theorem send_message_always_acknowledged (af : String → String → Bool)
    (rooms : String → List String) (nextId : Nat) (now senderSocket senderId : String)
    (data : Option SendData) :
    ((handleSendMessage af rooms nextId now senderSocket senderId data).emits.countP
        (ackToSender senderSocket) = 1) ∧
    (∀ err u, Emit.toSocket senderSocket (Event.message_error err u) ∈
        (handleSendMessage af rooms nextId now senderSocket senderId data).emits →
      u = (data.getD emptyData).messageUuid) ∧
    (validSend (data.getD emptyData) = true →
      af senderId ((data.getD emptyData).receiverId.getD "") = true →
      Emit.toSocket senderSocket (Event.message_sent
          ((data.getD emptyData).messageUuid.getD "") "sent" now) ∈
        (handleSendMessage af rooms nextId now senderSocket senderId data).emits) ∧
    ((validSend (data.getD emptyData) = false ∨
        af senderId ((data.getD emptyData).receiverId.getD "") = false) →
      ∃ err, Emit.toSocket senderSocket (Event.message_error err
          (data.getD emptyData).messageUuid) ∈
        (handleSendMessage af rooms nextId now senderSocket senderId data).emits) := by
  by_cases hv : validSend (data.getD emptyData) = true
  · by_cases hf : af senderId ((data.getD emptyData).receiverId.getD "") = true
    · rw [handleSendMessage_ok af rooms nextId now senderSocket senderId data hv hf]
      refine ⟨?_, ?_, ?_, ?_⟩
      · simp [List.countP_cons, ackToSender]
      · intro err u hmem
        simp [ackToSender] at hmem
      · intro _ _
        simp
      · intro hcon
        rcases hcon with hc | hc
        · rw [hv] at hc; cases hc
        · rw [hf] at hc; cases hc
    · have hf' : af senderId ((data.getD emptyData).receiverId.getD "") = false := by
        revert hf; cases af senderId ((data.getD emptyData).receiverId.getD "") <;> simp
      rw [handleSendMessage_notFriends af rooms nextId now senderSocket senderId data hv hf']
      refine ⟨?_, ?_, ?_, ?_⟩
      · simp [List.countP_cons, ackToSender]
      · intro err u hmem
        simp at hmem
        exact hmem.2
      · intro _ hfc
        rw [hf'] at hfc; cases hfc
      · intro _
        exact ⟨"Message blocked: Users are not friends.", by simp⟩
  · have hv' : validSend (data.getD emptyData) = false := by
      revert hv; cases validSend (data.getD emptyData) <;> simp
    rw [handleSendMessage_invalid af rooms nextId now senderSocket senderId data hv']
    refine ⟨?_, ?_, ?_, ?_⟩
    · simp [List.countP_cons, ackToSender]
    · intro err u hmem
      simp at hmem
      exact hmem.2
    · intro hvc _
      rw [hv'] at hvc; cases hvc
    · intro _
      exact ⟨"Missing required fields (receiverId, messageUuid, message)", by simp⟩

/-- C6 witness at a concrete input (an unauthorized send). -/
theorem send_message_always_acknowledged_witness :
    (((handleSendMessage (fun _ _ => false) (fun _ => []) 0 "t0" "sockA" "alice"
        (some (SendData.mk (some "bob") (some "m1") (some "hi") none none))).emits.countP
        (ackToSender "sockA") = 1) ∧
    (∀ err u, Emit.toSocket "sockA" (Event.message_error err u) ∈
        (handleSendMessage (fun _ _ => false) (fun _ => []) 0 "t0" "sockA" "alice"
          (some (SendData.mk (some "bob") (some "m1") (some "hi") none none))).emits →
      u = ((some (SendData.mk (some "bob") (some "m1") (some "hi") none none)).getD
            emptyData).messageUuid) ∧
    (validSend ((some (SendData.mk (some "bob") (some "m1") (some "hi") none none)).getD
        emptyData) = true →
      (fun _ _ => false) "alice" (((some (SendData.mk (some "bob") (some "m1") (some "hi")
          none none)).getD emptyData).receiverId.getD "") = true →
      Emit.toSocket "sockA" (Event.message_sent
          (((some (SendData.mk (some "bob") (some "m1") (some "hi") none none)).getD
            emptyData).messageUuid.getD "") "sent" "t0") ∈
        (handleSendMessage (fun _ _ => false) (fun _ => []) 0 "t0" "sockA" "alice"
          (some (SendData.mk (some "bob") (some "m1") (some "hi") none none))).emits) ∧
    ((validSend ((some (SendData.mk (some "bob") (some "m1") (some "hi") none none)).getD
        emptyData) = false ∨
        (fun _ _ => false) "alice" (((some (SendData.mk (some "bob") (some "m1") (some "hi")
          none none)).getD emptyData).receiverId.getD "") = false) →
      ∃ err, Emit.toSocket "sockA" (Event.message_error err
          ((some (SendData.mk (some "bob") (some "m1") (some "hi") none none)).getD
            emptyData).messageUuid) ∈
        (handleSendMessage (fun _ _ => false) (fun _ => []) 0 "t0" "sockA" "alice"
          (some (SendData.mk (some "bob") (some "m1") (some "hi") none none))).emits)) :=
  send_message_always_acknowledged (fun _ _ => false) (fun _ => []) 0 "t0" "sockA" "alice"
    (some (SendData.mk (some "bob") (some "m1") (some "hi") none none))

/-- C5: draining the mailbox on reconnect emits every pending message for the
user, in original storage order and with status delivered, and afterwards the
mailbox holds no message for that user. -/
theorem reconnect_drains_mailbox_in_order (mailbox : List OfflineMessage) (userId : String) :
    (deliverOfflineMessages mailbox userId).1 =
      (getOfflineMessages mailbox userId).map
        (fun m => Emit.toRoom ("user_" ++ userId) (Event.new_message (offlinePayload m))) ∧
    (∀ m ∈ getOfflineMessages mailbox userId, (offlinePayload m).status = "delivered") ∧
    getOfflineMessages (deliverOfflineMessages mailbox userId).2 userId = [] := by
  refine ⟨rfl, fun m _ => rfl, ?_⟩
  simp only [deliverOfflineMessages, deleteOfflineMessages, getOfflineMessages]
  rw [List.filter_eq_nil_iff]
  intro m hm hrecv
  rw [List.mem_filter] at hm
  obtain ⟨hmem, hdel⟩ := hm
  have hid : m.id ∈ (List.filter (fun m => m.receiver_id == userId) mailbox).map
      (fun m => m.id) :=
    List.mem_map_of_mem _ (List.mem_filter.mpr ⟨hmem, hrecv⟩)
  simp only [List.contains, Bool.not_eq_true'] at hdel
  rw [← List.elem_iff] at hid
  rw [hdel] at hid
  cases hid

/-- C5 witness: a mailbox holding interleaved messages from two senders for
the same receiver is drained in storage order and left empty for that user. -/
theorem reconnect_drains_mailbox_in_order_witness :
    (deliverOfflineMessages
        [OfflineMessage.mk 1 "alice" "bob" "hi" "m1" none "t1",
         OfflineMessage.mk 2 "carol" "bob" "yo" "m2" none "t2",
         OfflineMessage.mk 3 "alice" "bob" "again" "m3" none "t3"] "bob").1 =
      (getOfflineMessages
        [OfflineMessage.mk 1 "alice" "bob" "hi" "m1" none "t1",
         OfflineMessage.mk 2 "carol" "bob" "yo" "m2" none "t2",
         OfflineMessage.mk 3 "alice" "bob" "again" "m3" none "t3"] "bob").map
        (fun m => Emit.toRoom ("user_" ++ "bob") (Event.new_message (offlinePayload m))) ∧
    (∀ m ∈ getOfflineMessages
        [OfflineMessage.mk 1 "alice" "bob" "hi" "m1" none "t1",
         OfflineMessage.mk 2 "carol" "bob" "yo" "m2" none "t2",
         OfflineMessage.mk 3 "alice" "bob" "again" "m3" none "t3"] "bob",
      (offlinePayload m).status = "delivered") ∧
    getOfflineMessages (deliverOfflineMessages
        [OfflineMessage.mk 1 "alice" "bob" "hi" "m1" none "t1",
         OfflineMessage.mk 2 "carol" "bob" "yo" "m2" none "t2",
         OfflineMessage.mk 3 "alice" "bob" "again" "m3" none "t3"] "bob").2 "bob" = [] :=
  reconnect_drains_mailbox_in_order
    [OfflineMessage.mk 1 "alice" "bob" "hi" "m1" none "t1",
     OfflineMessage.mk 2 "carol" "bob" "yo" "m2" none "t2",
     OfflineMessage.mk 3 "alice" "bob" "again" "m3" none "t3"] "bob"

/-- C4 counterexample: user u1 has friends [u2] and a second live connection
s2 still joined to room user_u1; handleDisconnect for one of u1's sockets
nevertheless emits friend_status_update with isOnline false to u2's room,
because the handler never consults room membership. -/
theorem disconnect_emits_offline_despite_live_connection :
    ¬(fun r => if r = "user_u1" then ["s2"] else []) "user_u1" = ([] : List String) ∧
    Emit.toRoom "user_u2" (Event.friend_status_update "u1" false "t0") ∈
      (handleDisconnect (fun u => if u = "u1" then ["u2"] else []) (some "u1") "t0").emits := by
  refine ⟨by simp, ?_⟩
  simp [handleDisconnect, notifyFriendsStatusChange]

/-- C8 failing input: an update_message_status event with an undefined payload
is destructured before the try block of handleMessageStatusUpdate and throws,
escaping every catch in the handler. -/
theorem status_update_missing_payload_throws :
    handleMessageStatusUpdate "u1" none =
      JsOutcome.thrown "TypeError: cannot destructure properties of undefined" := rfl

/-- Lookup of a cons cell whose key matches. -/
theorem sessionsOf_cons_self (e : String × List String) (T : List (String × List String))
    (u : String) (h : e.1 = u) : sessionsOf (e :: T) u = e.2 := by
  simp [sessionsOf, List.find?_cons_of_pos, h]

/-- Lookup skips a cons cell whose key differs. -/
theorem sessionsOf_cons_ne (e : String × List String) (T : List (String × List String))
    (u : String) (h : ¬e.1 = u) : sessionsOf (e :: T) u = sessionsOf T u := by
  simp only [sessionsOf]
  rw [List.find?_cons_of_neg]
  simp [h]

/-- Lookup of a key that occurs in no entry is empty. -/
theorem sessionsOf_eq_nil_of_not_key (T : List (String × List String)) (u : String)
    (h : u ∉ T.map Prod.fst) : sessionsOf T u = [] := by
  have hnone : T.find? (fun e => e.1 == u) = none := by
    rw [List.find?_eq_none]
    intro e he
    simp only [beq_iff_eq]
    intro hc
    exact h (hc ▸ List.mem_map_of_mem Prod.fst he)
  simp only [sessionsOf, hnone]

/-- The characterization of an accepted socket authentication: the token is
present, verifies, and the decoded pair is in the session table. -/
theorem authenticateSocket_accepted_iff (verify : String → Option (String × String))
    (table : List (String × List String)) (token : Option String) (u s : String) :
    authenticateSocket verify table token = AuthResult.accepted u s ↔
      ∃ t, token = some t ∧ verify t = some (u, s) ∧ s ∈ sessionsOf table u := by
  cases token with
  | none => simp [authenticateSocket]
  | some t =>
    cases hv : verify t with
    | none => simp [authenticateSocket, hv]
    | some pair =>
      obtain ⟨uid, sid⟩ := pair
      have hred : authenticateSocket verify table (some t) =
          (match table.find? (fun e => e.1 == uid) with
           | none => AuthResult.rejected "Session has been invalidated"
           | some e =>
             if sid ∈ e.2 then AuthResult.accepted uid sid
             else AuthResult.rejected "Session has been invalidated") := by
        simp only [authenticateSocket, hv]
      rw [hred]
      cases hf : table.find? (fun e => e.1 == uid) with
      | none =>
        constructor
        · intro h
          exact AuthResult.noConfusion h
        · rintro ⟨t2, ht2, hv2, hs⟩
          obtain rfl : t2 = t := Option.some.inj ht2.symm
          rw [hv] at hv2
          simp only [Option.some.injEq, Prod.mk.injEq] at hv2
          obtain ⟨rfl, rfl⟩ := hv2
          simp only [sessionsOf, hf] at hs
          simp at hs
      | some e =>
        have hstep : (match some e with
            | none => AuthResult.rejected "Session has been invalidated"
            | some e =>
              if sid ∈ e.2 then AuthResult.accepted uid sid
              else AuthResult.rejected "Session has been invalidated")
            = (if sid ∈ e.2 then AuthResult.accepted uid sid
               else AuthResult.rejected "Session has been invalidated") := rfl
        by_cases hmem : sid ∈ e.2
        · rw [hstep, if_pos hmem]
          constructor
          · intro h
            obtain ⟨rfl, rfl⟩ : uid = u ∧ sid = s := by
              have := h
              simp only [AuthResult.accepted.injEq] at this
              exact this
            exact ⟨t, rfl, hv, by simp only [sessionsOf, hf]; exact hmem⟩
          · rintro ⟨t2, ht2, hv2, hs⟩
            obtain rfl : t2 = t := Option.some.inj ht2.symm
            rw [hv] at hv2
            simp only [Option.some.injEq, Prod.mk.injEq] at hv2
            obtain ⟨rfl, rfl⟩ := hv2
            rfl
        · rw [hstep, if_neg hmem]
          constructor
          · intro h
            exact AuthResult.noConfusion h
          · rintro ⟨t2, ht2, hv2, hs⟩
            obtain rfl : t2 = t := Option.some.inj ht2.symm
            rw [hv] at hv2
            simp only [Option.some.injEq, Prod.mk.injEq] at hv2
            obtain ⟨rfl, rfl⟩ := hv2
            simp only [sessionsOf, hf] at hs
            exact absurd hs hmem

/-- C7: a connection attempt is accepted exactly when its token verifies and
the decoded (userId, sessionId) pair is currently in the userSessions table;
in particular a token whose session was removed (for example by a prior
logout) is rejected. -/
theorem socket_auth_accepts_iff_active_session (verify : String → Option (String × String))
    (table : List (String × List String)) (token : Option String) (u s : String) :
    authenticateSocket verify table token = AuthResult.accepted u s ↔
      ∃ t, token = some t ∧ verify t = some (u, s) ∧ s ∈ sessionsOf table u :=
  authenticateSocket_accepted_iff verify table token u s

/-- C7 witness: a concrete stale token (pair absent from the table) is not
accepted, and a live pair is. -/
theorem socket_auth_accepts_iff_active_session_witness :
    (authenticateSocket (fun tk => if tk = "tok1" then some ("u1", "s1") else none)
        [("u1", ["s1"])] (some "tok1") = AuthResult.accepted "u1" "s1" ↔
      ∃ t, (some "tok1" : Option String) = some t ∧
        (fun tk => if tk = "tok1" then some (("u1" : String), ("s1" : String)) else none) t =
          some ("u1", "s1") ∧
        "s1" ∈ sessionsOf [("u1", ["s1"])] "u1") :=
  socket_auth_accepts_iff_active_session
    (fun tk => if tk = "tok1" then some ("u1", "s1") else none) [("u1", ["s1"])]
    (some "tok1") "u1" "s1"

/-- removeSession leaves a cons cell with a different key in place. -/
theorem removeSession_cons_ne (e : String × List String) (T : List (String × List String))
    (u s : String) (h : ¬e.1 = u) :
    removeSession (e :: T) u s = e :: removeSession T u s := by
  simp [removeSession, List.filter_cons, h]

/-- removeSession drops a matching cons cell whose session set becomes empty. -/
theorem removeSession_cons_self_empty (e : String × List String)
    (T : List (String × List String)) (u s : String)
    (h : e.1 = u) (he : e.2.erase s = []) :
    removeSession (e :: T) u s = removeSession T u s := by
  simp [removeSession, List.filter_cons, h, he]

/-- removeSession rewrites a matching cons cell whose session set stays nonempty. -/
theorem removeSession_cons_self_nonempty (e : String × List String)
    (T : List (String × List String)) (u s : String)
    (h : e.1 = u) (he : ¬e.2.erase s = []) :
    removeSession (e :: T) u s = (e.1, e.2.erase s) :: removeSession T u s := by
  simp [removeSession, List.filter_cons, h, he]

/-- Keys of removeSession all come from the original table. -/
theorem key_mem_of_removeSession (T : List (String × List String)) (u s a : String)
    (h : a ∈ (removeSession T u s).map Prod.fst) : a ∈ T.map Prod.fst := by
  induction T with
  | nil => simp [removeSession] at h
  | cons e T ih =>
    by_cases he : e.1 = u
    · by_cases hemp : e.2.erase s = []
      · rw [removeSession_cons_self_empty e T u s he hemp] at h
        exact List.mem_cons.mpr (Or.inr (ih h))
      · rw [removeSession_cons_self_nonempty e T u s he hemp] at h
        simp only [List.map_cons] at h ⊢
        rcases List.mem_cons.mp h with h1 | h2
        · exact List.mem_cons.mpr (Or.inl h1)
        · exact List.mem_cons.mpr (Or.inr (ih h2))
    · rw [removeSession_cons_ne e T u s he] at h
      simp only [List.map_cons] at h ⊢
      rcases List.mem_cons.mp h with h1 | h2
      · exact List.mem_cons.mpr (Or.inl h1)
      · exact List.mem_cons.mpr (Or.inr (ih h2))

/-- Frame property: removing a session of uid changes no other key. -/
theorem sessionsOf_removeSession_ne (T : List (String × List String)) (uid sid u : String)
    (hu : ¬u = uid) :
    sessionsOf (removeSession T uid sid) u = sessionsOf T u := by
  induction T with
  | nil => rfl
  | cons e T ih =>
    by_cases he : e.1 = uid
    · have hne : ¬e.1 = u := fun hc => hu (hc ▸ he)
      by_cases hemp : e.2.erase sid = []
      · rw [removeSession_cons_self_empty e T uid sid he hemp, ih,
          sessionsOf_cons_ne e T u hne]
      · rw [removeSession_cons_self_nonempty e T uid sid he hemp,
          sessionsOf_cons_ne (e.1, e.2.erase sid) (removeSession T uid sid) u hne,
          ih, sessionsOf_cons_ne e T u hne]
    · rw [removeSession_cons_ne e T uid sid he]
      by_cases heu : e.1 = u
      · rw [sessionsOf_cons_self e (removeSession T uid sid) u heu,
          sessionsOf_cons_self e T u heu]
      · rw [sessionsOf_cons_ne e (removeSession T uid sid) u heu, ih,
          sessionsOf_cons_ne e T u heu]

/-- Under unique keys, removing a session of uid erases exactly sid from the
looked-up session set of uid. -/
theorem sessionsOf_removeSession_self (T : List (String × List String)) (uid sid : String)
    (hkeys : (T.map Prod.fst).Nodup) :
    sessionsOf (removeSession T uid sid) uid = (sessionsOf T uid).erase sid := by
  induction T with
  | nil => rfl
  | cons e T ih =>
    rw [List.map_cons, List.nodup_cons] at hkeys
    obtain ⟨hnot, hnd⟩ := hkeys
    by_cases he : e.1 = uid
    · have huidT : uid ∉ T.map Prod.fst := he ▸ hnot
      by_cases hemp : e.2.erase sid = []
      · rw [removeSession_cons_self_empty e T uid sid he hemp,
          sessionsOf_cons_self e T uid he, hemp]
        exact sessionsOf_eq_nil_of_not_key (removeSession T uid sid) uid
          (fun hc => huidT (key_mem_of_removeSession T uid sid uid hc))
      · rw [removeSession_cons_self_nonempty e T uid sid he hemp,
          sessionsOf_cons_self (e.1, e.2.erase sid) (removeSession T uid sid) uid he,
          sessionsOf_cons_self e T uid he]
    · rw [removeSession_cons_ne e T uid sid he,
        sessionsOf_cons_ne e (removeSession T uid sid) uid he,
        sessionsOf_cons_ne e T uid he]
      exact ih hnd

/-- Session sets looked up from a table of duplicate-free sets are duplicate-free. -/
theorem sessionsOf_nodup (T : List (String × List String)) (u : String)
    (hsets : ∀ e ∈ T, e.2.Nodup) : (sessionsOf T u).Nodup := by
  simp only [sessionsOf]
  cases hf : T.find? (fun e => e.1 == u) with
  | none => exact List.nodup_nil
  | some e => exact hsets e (List.mem_of_find?_eq_some hf)

/-- C9: logout with a token decoding to (uid, sid) removes exactly that pair
from the userSessions table: sid no longer authenticates for uid, every other
session of uid is untouched, every other user is untouched, and every pair
other than (uid, sid) authenticates new socket connections exactly as before. -/
theorem logout_invalidates_exactly_presented_session
    (verify : String → Option (String × String)) (table : List (String × List String))
    (t uid sid : String)
    (hkeys : (table.map Prod.fst).Nodup)
    (hsets : ∀ e ∈ table, e.2.Nodup)
    (hver : verify t = some (uid, sid)) :
    sid ∉ sessionsOf (logout verify table (some t)).1 uid ∧
    (∀ s, ¬s = sid → (s ∈ sessionsOf (logout verify table (some t)).1 uid ↔
      s ∈ sessionsOf table uid)) ∧
    (∀ u, ¬u = uid → sessionsOf (logout verify table (some t)).1 u = sessionsOf table u) ∧
    (∀ verifyB tokenB u s, ¬(u = uid ∧ s = sid) →
      (authenticateSocket verifyB (logout verify table (some t)).1 tokenB =
          AuthResult.accepted u s ↔
        authenticateSocket verifyB table tokenB = AuthResult.accepted u s)) := by
  have hlog : (logout verify table (some t)).1 = removeSession table uid sid := by
    simp [logout, hver]
  rw [hlog]
  have h1 : sessionsOf (removeSession table uid sid) uid = (sessionsOf table uid).erase sid :=
    sessionsOf_removeSession_self table uid sid hkeys
  have hnd : (sessionsOf table uid).Nodup := sessionsOf_nodup table uid hsets
  refine ⟨?_, ?_, ?_, ?_⟩
  · rw [h1]
    exact hnd.not_mem_erase
  · intro s hs
    rw [h1]
    exact List.mem_erase_of_ne hs
  · intro u hu
    exact sessionsOf_removeSession_ne table uid sid u hu
  · intro verifyB tokenB u s hne
    rw [authenticateSocket_accepted_iff, authenticateSocket_accepted_iff]
    constructor
    · rintro ⟨tk, htk, hvk, hmem⟩
      refine ⟨tk, htk, hvk, ?_⟩
      by_cases hu : u = uid
      · subst hu
        have hssid : ¬s = sid := fun hc => hne ⟨rfl, hc⟩
        rw [h1] at hmem
        exact (List.mem_erase_of_ne hssid).mp hmem
      · rwa [sessionsOf_removeSession_ne table uid sid u hu] at hmem
    · rintro ⟨tk, htk, hvk, hmem⟩
      refine ⟨tk, htk, hvk, ?_⟩
      by_cases hu : u = uid
      · subst hu
        have hssid : ¬s = sid := fun hc => hne ⟨rfl, hc⟩
        rw [h1]
        exact (List.mem_erase_of_ne hssid).mpr hmem
      · rwa [sessionsOf_removeSession_ne table uid sid u hu]

/-- C9 witness at a concrete two-user table with two sessions for u1. -/
theorem logout_invalidates_exactly_presented_session_witness :
    (([(("u1" : String), ["s1", "s2"]), ("u2", ["s3"])].map Prod.fst).Nodup) ∧
    (∀ e ∈ [(("u1" : String), [("s1" : String), "s2"]), ("u2", ["s3"])], e.2.Nodup) ∧
    ((fun tk => if tk = "tok1" then some (("u1" : String), ("s1" : String)) else none) "tok1" =
      some ("u1", "s1")) ∧
    (("s1" : String) ∉ sessionsOf
        (logout (fun tk => if tk = "tok1" then some (("u1" : String), ("s1" : String)) else none)
          [("u1", ["s1", "s2"]), ("u2", ["s3"])] (some "tok1")).1 "u1" ∧
      (∀ s, ¬s = "s1" → (s ∈ sessionsOf
          (logout (fun tk => if tk = "tok1" then some (("u1" : String), ("s1" : String)) else none)
            [("u1", ["s1", "s2"]), ("u2", ["s3"])] (some "tok1")).1 "u1" ↔
        s ∈ sessionsOf [("u1", ["s1", "s2"]), ("u2", ["s3"])] "u1")) ∧
      (∀ u, ¬u = "u1" → sessionsOf
          (logout (fun tk => if tk = "tok1" then some (("u1" : String), ("s1" : String)) else none)
            [("u1", ["s1", "s2"]), ("u2", ["s3"])] (some "tok1")).1 u =
        sessionsOf [("u1", ["s1", "s2"]), ("u2", ["s3"])] u) ∧
      (∀ verifyB tokenB u s, ¬(u = "u1" ∧ s = "s1") →
        (authenticateSocket verifyB
            (logout (fun tk => if tk = "tok1" then some (("u1" : String), ("s1" : String)) else none)
              [("u1", ["s1", "s2"]), ("u2", ["s3"])] (some "tok1")).1 tokenB =
            AuthResult.accepted u s ↔
          authenticateSocket verifyB [("u1", ["s1", "s2"]), ("u2", ["s3"])] tokenB =
            AuthResult.accepted u s))) :=
  ⟨by decide, by decide, by decide,
    logout_invalidates_exactly_presented_session
      (fun tk => if tk = "tok1" then some (("u1" : String), ("s1" : String)) else none)
      [("u1", ["s1", "s2"]), ("u2", ["s3"])] "tok1" "u1" "s1"
      (by decide) (by decide) (by decide)⟩
